import Mathlib

/-!
Shallow embedding of `src/pagerduty_shift_swap.py`: a script that swaps two
users' on-call shifts on a PagerDuty schedule by creating reciprocal
overrides.  Remote HTTP responses are modelled by an `Api` oracle; every
function returns the list of observable events it produces (GET requests,
override-writer invocations, POST writes) together with an `Except` value
standing for Python's normal return / raised exception.
-/

namespace ShiftSwap

/-- Python exceptions that the script can raise: `KeyError` from a missing
dict key, `ValueError` from `strptime`, and HTTP errors from
`raise_for_status`. -/
inductive PDError where
  | keyError (key : String)
  | valueError
  | httpError (status : Nat)
  deriving Repr, DecidableEq

/-- A PagerDuty user record as consumed by the script.  Only the two keys the
code reads (`id` and `summary`) are modelled; each is `Option` because a
Python dict lookup on a missing key raises `KeyError`. -/
structure UserRec where
  uid : Option String
  summary : Option String
  deriving Repr, DecidableEq

/-- A schedule record from the search endpoint; the code only reads `id`. -/
structure ScheduleRec where
  sid : String
  deriving Repr, DecidableEq

/-- One rendered schedule entry: the code reads `shift['user']['id']`,
`shift['start']` and `shift['end']` (`stop` models the `end` key). -/
structure ShiftEntry where
  userId : String
  start : String
  stop : String
  deriving Repr, DecidableEq

/-- Observable events of one run.  The four GET constructors and
`postOverride` are network calls; `invokeOverride` is an instrumentation
marker recording each invocation of `create_override` with its arguments
(the source logs exactly this line in both dry-run and real mode). -/
inductive Event where
  | getUsersMe
  | getUsers (query : String)
  | getSchedules (query : String)
  | getSchedule (scheduleId : String) (since untl : String)
  | invokeOverride (scheduleId : String) (userId : Option String) (start stop : String) (dryRun : Bool)
  | postOverride (scheduleId : String) (userId : String) (start stop : String)
  deriving Repr, DecidableEq

/-- `true` exactly on the network write call (`POST /schedules/{id}/overrides`). -/
def Event.isPost : Event → Bool
  | .postOverride _ _ _ _ => true
  | _ => false

/-- `true` exactly on the schedule-render fetch (`GET /schedules/{id}`). -/
def Event.isFetch : Event → Bool
  | .getSchedule _ _ _ => true
  | _ => false

/-- `true` exactly on an invocation of the override writer. -/
def Event.isInvoke : Event → Bool
  | .invokeOverride _ _ _ _ _ => true
  | _ => false

/-- The remote service, as an oracle fixing every response the run can see.
Read endpoints are assumed to answer (their HTTP failures are not the subject
of any claim); the override POST may succeed or fail. -/
structure Api where
  currentUser : UserRec
  userSearch : String → List UserRec
  scheduleSearch : String → List ScheduleRec
  renderedEntries : String → String → String → List ShiftEntry
  overrideResult : String → String → String → String → Except PDError Unit

/-! ## Date arithmetic

`main` computes each window's end as
`strptime(start, "%Y-%m-%d") + timedelta(days=8)` formatted back with
`strftime("%Y-%m-%d")`.  `timedelta(days=8)` advances the proleptic Gregorian
date by eight days; we model it by iterating a calendar successor. -/

/-- Gregorian leap-year rule. -/
def isLeapYear (y : Nat) : Bool :=
  (y % 4 = 0 && y % 100 ≠ 0) || y % 400 = 0

/-- Days in a month of the proleptic Gregorian calendar. -/
def daysInMonth (y m : Nat) : Nat :=
  if m = 2 then (if isLeapYear y then 29 else 28)
  else if m = 4 ∨ m = 6 ∨ m = 9 ∨ m = 11 then 30
  else 31

/-- A calendar date as parsed by `strptime("%Y-%m-%d")`. -/
structure Date where
  year : Nat
  month : Nat
  day : Nat
  deriving Repr, DecidableEq

/-- The next calendar day. -/
def nextDay (d : Date) : Date :=
  if d.day < daysInMonth d.year d.month then ⟨d.year, d.month, d.day + 1⟩
  else if d.month < 12 then ⟨d.year, d.month + 1, 1⟩
  else ⟨d.year + 1, 1, 1⟩

/-- `d + timedelta(days=n)`. -/
def addDays (d : Date) : Nat → Date
  | 0 => d
  | n + 1 => nextDay (addDays d n)

/-- Split a character list on a separator (structural analogue of
`String.splitOn` for a one-character separator). -/
def splitFields (sep : Char) : List Char → List (List Char)
  | [] => [[]]
  | c :: cs =>
    let rest := splitFields sep cs
    if c = sep then [] :: rest
    else
      match rest with
      | [] => [[c]]
      | f :: fs => (c :: f) :: fs

/-- Read a non-empty all-digit field as a decimal number. -/
def parseNatField (cs : List Char) : Option Nat :=
  if cs ≠ [] ∧ cs.all Char.isDigit then
    some (cs.foldl (fun a c => 10 * a + (c.toNat - 48)) 0)
  else none

/-- `datetime.strptime(s, "%Y-%m-%d")` restricted to its date part: split on
the dashes and read the three decimal fields; `none` models the raised
`ValueError`. -/
def strptimeYmd (s : String) : Option Date :=
  match splitFields (Char.ofNat 45) s.data with
  | [y, m, d] =>
    match parseNatField y, parseNatField m, parseNatField d with
    | some y', some m', some d' => some ⟨y', m', d'⟩
    | _, _, _ => none
  | _ => none

/-- Zero-pad to two digits (strftime `%m` / `%d`). -/
def pad2 (n : Nat) : String :=
  if n < 10 then "0" ++ toString n else toString n

/-- Zero-pad to four digits (strftime `%Y`). -/
def pad4 (n : Nat) : String :=
  if n < 10 then "000" ++ toString n
  else if n < 100 then "00" ++ toString n
  else if n < 1000 then "0" ++ toString n
  else toString n

/-- `strftime("%Y-%m-%d")`. -/
def strftimeYmd (d : Date) : String :=
  pad4 d.year ++ "-" ++ pad2 d.month ++ "-" ++ pad2 d.day

/-! ## The five functions of the script -/

/-- `get_current_user`: `GET /users/me`, returns `response.json()['user']`. -/
def get_current_user (api : Api) : List Event × UserRec :=
  ([Event.getUsersMe], api.currentUser)

/-- `get_user_by_username`: `GET /users?query=...`; returns `users[0]` when
the result list is non-empty, else `None`. -/
def get_user_by_username (api : Api) (username : String) : List Event × Option UserRec :=
  ([Event.getUsers username], (api.userSearch username).head?)

/-- `get_schedule_id_by_name`: `GET /schedules?query=...`; returns
`schedules[0]['id']` when the result list is non-empty, else `None`. -/
def get_schedule_id_by_name (api : Api) (schedule_name : String) :
    List Event × Option String :=
  ([Event.getSchedules schedule_name],
   (api.scheduleSearch schedule_name).head?.map (fun s => s.sid))

/-- `get_schedule`: `GET /schedules/{id}?since=...&until=...&time_zone=UTC`;
returns `schedule['final_schedule']['rendered_schedule_entries']`. -/
def get_schedule (api : Api) (schedule_id start_date end_date : String) :
    List Event × List ShiftEntry :=
  ([Event.getSchedule schedule_id start_date end_date],
   api.renderedEntries schedule_id start_date end_date)

/-- `create_override`: builds the override body (reading `user['id']`), logs a
line reading `user['summary']`, then either stops there (dry run) or POSTs
the override and calls `raise_for_status`.  Both key reads happen before any
network call, in both modes; a missing key raises `KeyError` (`.error`).
Every invocation is recorded by a leading `invokeOverride` event. -/
def create_override (api : Api) (schedule_id : String) (user : UserRec)
    (start stop : String) (dry_run : Bool) : List Event × Except PDError Unit :=
  let inv := Event.invokeOverride schedule_id user.uid start stop dry_run
  match user.uid with
  | none => ([inv], .error (.keyError "id"))
  | some uid =>
    match user.summary with
    | none => ([inv], .error (.keyError "summary"))
    | some _ =>
      if dry_run then ([inv], .ok ())
      else
        match api.overrideResult schedule_id uid start stop with
        | .ok _ => ([inv, Event.postOverride schedule_id uid start stop], .ok ())
        | .error e => ([inv, Event.postOverride schedule_id uid start stop], .error e)

/-- One `for shift in shifts: create_override(...)` loop of `swap_shifts`.
A raised exception propagates, skipping the remaining iterations. -/
def override_loop (api : Api) (schedule_id : String) (user : UserRec)
    (dry_run : Bool) : List ShiftEntry → List Event × Except PDError Unit
  | [] => ([], .ok ())
  | shift :: rest =>
    let c := create_override api schedule_id user shift.start shift.stop dry_run
    match c.2 with
    | .error e => (c.1, .error e)
    | .ok _ =>
      let r := override_loop api schedule_id user dry_run rest
      (c.1 ++ r.1, r.2)

/-- `swap_shifts`: first assign each of the current user's shifts to the other
user, then each of the other user's shifts to the current user.  An exception
in the first loop propagates before the second loop starts. -/
def swap_shifts (api : Api) (schedule_id : String) (current_user other_user : UserRec)
    (current_user_shifts other_user_shifts : List ShiftEntry) (dry_run : Bool) :
    List Event × Except PDError Unit :=
  let l1 := override_loop api schedule_id other_user dry_run current_user_shifts
  match l1.2 with
  | .error e => (l1.1, .error e)
  | .ok _ =>
    let l2 := override_loop api schedule_id current_user dry_run other_user_shifts
    (l1.1 ++ l2.1, l2.2)

/-- The list comprehension of `main`:
`[shift for shift in week_shifts if shift['user']['id'] == user_id]`. -/
def selectUserShifts (entries : List ShiftEntry) (userId : String) : List ShiftEntry :=
  entries.filter (fun shift => shift.userId == userId)

/-- `main`: resolve the current user and the other user (early clean return if
the latter is not found), resolve the schedule (early clean return if not
found, or — Python string falsiness — if its id is the empty string), compute
both 8-day windows, fetch and filter each user's shifts, and swap.
`current_user['id']` is read (line 121) after the first fetch and before the
second; `other_user['id']` (line 123) after the second. -/
def main (api : Api) (schedule_name current_user_week other_user_username
    other_user_week : String) (dry_run : Bool) : List Event × Except PDError Unit :=
  let t0 := (get_current_user api).1
  let current_user := (get_current_user api).2
  let t1 := (get_user_by_username api other_user_username).1
  match (get_user_by_username api other_user_username).2 with
  | none => (t0 ++ t1, .ok ())
  | some other_user =>
    let t2 := (get_schedule_id_by_name api schedule_name).1
    match (get_schedule_id_by_name api schedule_name).2 with
    | none => (t0 ++ t1 ++ t2, .ok ())
    | some schedule_id =>
      if schedule_id = "" then (t0 ++ t1 ++ t2, .ok ())
      else
        match strptimeYmd current_user_week with
        | none => (t0 ++ t1 ++ t2, .error .valueError)
        | some dateA =>
          match strptimeYmd other_user_week with
          | none => (t0 ++ t1 ++ t2, .error .valueError)
          | some dateB =>
            let current_user_end_date := strftimeYmd (addDays dateA 8)
            let other_user_end_date := strftimeYmd (addDays dateB 8)
            let f1 := get_schedule api schedule_id current_user_week current_user_end_date
            match current_user.uid with
            | none => (t0 ++ t1 ++ t2 ++ f1.1, .error (.keyError "id"))
            | some currentUserId =>
              let current_user_shifts := selectUserShifts f1.2 currentUserId
              let f2 := get_schedule api schedule_id other_user_week other_user_end_date
              match other_user.uid with
              | none => (t0 ++ t1 ++ t2 ++ f1.1 ++ f2.1, .error (.keyError "id"))
              | some otherUserId =>
                let other_user_shifts := selectUserShifts f2.2 otherUserId
                let s := swap_shifts api schedule_id current_user other_user
                  current_user_shifts other_user_shifts dry_run
                (t0 ++ t1 ++ t2 ++ f1.1 ++ f2.1 ++ s.1, s.2)

/-! ## Derived notions used by the statements -/

/-- The invocation event the writer records for shift `s` handed to user `u`. -/
def invokeEvent (schedule_id : String) (u : UserRec) (dry_run : Bool)
    (s : ShiftEntry) : Event :=
  Event.invokeOverride schedule_id u.uid s.start s.stop dry_run

/-- The planned sequence of writer calls of one swap: user A's shifts go to
B first, then B's shifts to A. -/
def swapPlan (current_user other_user : UserRec)
    (current_user_shifts other_user_shifts : List ShiftEntry) :
    List (UserRec × ShiftEntry) :=
  current_user_shifts.map (fun s => (other_user, s))
    ++ other_user_shifts.map (fun s => (current_user, s))

/-- The writer call for one plan entry. -/
def planCall (api : Api) (schedule_id : String) (dry_run : Bool)
    (p : UserRec × ShiftEntry) : List Event × Except PDError Unit :=
  create_override api schedule_id p.1 p.2.start p.2.stop dry_run

/-- Run the writer over a plan, stopping at the first raised exception. -/
def runPlan (api : Api) (schedule_id : String) (dry_run : Bool) :
    List (UserRec × ShiftEntry) → List Event × Except PDError Unit
  | [] => ([], .ok ())
  | p :: rest =>
    let c := planCall api schedule_id dry_run p
    match c.2 with
    | .error e => (c.1, .error e)
    | .ok _ =>
      let r := runPlan api schedule_id dry_run rest
      (c.1 ++ r.1, r.2)

/-! ## Concrete fixtures (used to evaluate the theorems on closed inputs) -/

/-- The current user of the scenario runs. -/
def userA : UserRec := ⟨some "U1", some "Alice"⟩

/-- The other user of the scenario runs. -/
def userB : UserRec := ⟨some "U2", some "Bob"⟩

/-- The current user's one shift in the week of 2024-01-01. -/
def shiftA1 : ShiftEntry := ⟨"U1", "2024-01-01T00:00:00Z", "2024-01-08T00:00:00Z"⟩

/-- The other user's one shift in the week of 2024-01-08. -/
def shiftB1 : ShiftEntry := ⟨"U2", "2024-01-08T00:00:00Z", "2024-01-15T00:00:00Z"⟩

/-- A remote service on which every call succeeds: one schedule, one match
per user search, one rendered entry per week for each user. -/
def apiOk : Api where
  currentUser := userA
  userSearch := fun _ => [userB]
  scheduleSearch := fun _ => [⟨"PSCHED1"⟩]
  renderedEntries := fun _ since _ =>
    if since = "2024-01-01" then [shiftA1, ⟨"U3", "x", "y"⟩] else [shiftB1]
  overrideResult := fun _ _ _ _ => .ok ()

/-- Same service, but every override POST is rejected with a 400. -/
def apiFail : Api :=
  { apiOk with overrideResult := fun _ _ _ _ => .error (.httpError 400) }

/-- Same service, but the user search finds nobody. -/
def apiNoUser : Api := { apiOk with userSearch := fun _ => [] }

/-- Same service, but the schedule search finds nothing. -/
def apiNoSchedule : Api := { apiOk with scheduleSearch := fun _ => [] }

/-- Same service, but the searches return several candidates. -/
def apiMany : Api :=
  { apiOk with
    userSearch := fun _ => [userB, userA]
    scheduleSearch := fun _ => [⟨"PSCHED1"⟩, ⟨"PSCHED2"⟩] }

/-! ## Lemmas about the override writer -/

/-- Each writer call records exactly one invocation event. -/
theorem create_override_filter_invoke (api : Api) (sid : String) (u : UserRec)
    (s e : String) (d : Bool) :
    ((create_override api sid u s e d).1).filter Event.isInvoke
      = [Event.invokeOverride sid u.uid s e d] := by
  obtain ⟨uid, sm⟩ := u
  unfold create_override
  cases uid with
  | none => simp [Event.isInvoke]
  | some uid =>
    cases sm with
    | none => simp [Event.isInvoke]
    | some sm =>
      cases d with
      | true => simp [Event.isInvoke]
      | false =>
        cases h : api.overrideResult sid uid s e with
        | ok _ => simp [h, Event.isInvoke]
        | error e0 => simp [h, Event.isInvoke]

/-- A dry-run writer call issues no POST. -/
theorem create_override_filter_post_dry (api : Api) (sid : String) (u : UserRec)
    (s e : String) :
    ((create_override api sid u s e true).1).filter Event.isPost = [] := by
  obtain ⟨uid, sm⟩ := u
  unfold create_override
  cases uid with
  | none => simp [Event.isPost]
  | some uid =>
    cases sm with
    | none => simp [Event.isPost]
    | some sm => simp [Event.isPost]

/-- A writer call records no schedule-fetch event. -/
theorem create_override_no_fetch (api : Api) (sid : String) (u : UserRec)
    (s e : String) (d : Bool) :
    ((create_override api sid u s e d).1).filter Event.isFetch = [] := by
  obtain ⟨uid, sm⟩ := u
  unfold create_override
  cases uid with
  | none => simp [Event.isFetch]
  | some uid =>
    cases sm with
    | none => simp [Event.isFetch]
    | some sm =>
      cases d with
      | true => simp [Event.isFetch]
      | false =>
        cases h : api.overrideResult sid uid s e with
        | ok _ => simp [h, Event.isFetch]
        | error e0 => simp [h, Event.isFetch]

/-- A writer call that returns normally saw both dict keys present. -/
theorem create_override_ok_keys (api : Api) (sid : String) (u : UserRec)
    (s e : String) (d : Bool) (h : (create_override api sid u s e d).2 = .ok ()) :
    u.uid.isSome ∧ u.summary.isSome := by
  obtain ⟨uid, sm⟩ := u
  unfold create_override at h
  cases uid with
  | none => simp at h
  | some uid =>
    cases sm with
    | none => simp at h
    | some sm => simp

/-- With `id` present but `summary` missing, the writer raises
`KeyError('summary')` before any network call, in dry-run and real mode. -/
theorem create_override_missing_summary (api : Api) (sid : String) (u : UserRec)
    (s e : String) (d : Bool) (uid : String) (h1 : u.uid = some uid)
    (h2 : u.summary = none) :
    create_override api sid u s e d
      = ([Event.invokeOverride sid u.uid s e d], .error (.keyError "summary")) := by
  obtain ⟨uid?, sm?⟩ := u
  cases h1
  cases h2
  rfl

/-- With both keys present, a dry-run writer call returns normally. -/
theorem create_override_dry_ok (api : Api) (sid : String) (u : UserRec)
    (s e : String) (h1 : u.uid.isSome) (h2 : u.summary.isSome) :
    (create_override api sid u s e true).2 = .ok () := by
  obtain ⟨uid, sm⟩ := u
  cases uid with
  | none => simp at h1
  | some uid =>
    cases sm with
    | none => simp at h2
    | some sm => rfl

/-! ## Lemmas about the write loops -/

/-- One `for` loop of `swap_shifts` is `runPlan` on the singleton-user plan. -/
theorem override_loop_eq_runPlan (api : Api) (sid : String) (u : UserRec)
    (d : Bool) (shifts : List ShiftEntry) :
    override_loop api sid u d shifts
      = runPlan api sid d (shifts.map (fun s => (u, s))) := by
  induction shifts with
  | nil => rfl
  | cons s rest ih =>
    simp only [override_loop, runPlan, List.map_cons, planCall, ih]

/-- Running an appended plan: if the first part returns normally, the run
continues into the second part. -/
theorem runPlan_append_ok (api : Api) (sid : String) (d : Bool)
    (l1 l2 : List (UserRec × ShiftEntry))
    (h : (runPlan api sid d l1).2 = .ok ()) :
    runPlan api sid d (l1 ++ l2)
      = ((runPlan api sid d l1).1 ++ (runPlan api sid d l2).1,
         (runPlan api sid d l2).2) := by
  induction l1 with
  | nil => simp [runPlan]
  | cons p rest ih =>
    simp only [runPlan, List.cons_append] at h ⊢
    cases hc : (planCall api sid d p).2 with
    | error e => simp [hc] at h
    | ok _ =>
      simp only [hc] at h ⊢
      simp [ih h, List.append_assoc]

/-- Running an appended plan: an exception in the first part propagates and
the second part is never started. -/
theorem runPlan_append_error (api : Api) (sid : String) (d : Bool)
    (l1 l2 : List (UserRec × ShiftEntry)) (e : PDError)
    (h : (runPlan api sid d l1).2 = .error e) :
    runPlan api sid d (l1 ++ l2) = runPlan api sid d l1 := by
  induction l1 with
  | nil => simp [runPlan] at h
  | cons p rest ih =>
    simp only [runPlan, List.cons_append] at h ⊢
    cases hc : (planCall api sid d p).2 with
    | error e0 => simp [hc]
    | ok _ =>
      simp only [hc] at h ⊢
      simp [ih h]

/-- `swap_shifts` is exactly `runPlan` on the swap plan. -/
theorem swap_shifts_eq_runPlan (api : Api) (sid : String) (cu ou : UserRec)
    (A B : List ShiftEntry) (d : Bool) :
    swap_shifts api sid cu ou A B d = runPlan api sid d (swapPlan cu ou A B) := by
  simp only [swap_shifts, swapPlan, override_loop_eq_runPlan]
  cases h : (runPlan api sid d (A.map (fun s => (ou, s)))).2 with
  | error e =>
    rw [runPlan_append_error _ _ _ _ _ _ h]
    simp [h, Prod.ext_iff]
  | ok _ => simp [runPlan_append_ok _ _ _ _ _ h, h]

/-- `create_override_filter_invoke`, restated for a plan entry. -/
theorem planCall_filter_invoke (api : Api) (sid : String) (d : Bool)
    (p : UserRec × ShiftEntry) :
    ((planCall api sid d p).1).filter Event.isInvoke = [invokeEvent sid p.1 d p.2] :=
  create_override_filter_invoke api sid p.1 p.2.start p.2.stop d

/-- `create_override_no_fetch`, restated for a plan entry. -/
theorem planCall_no_fetch (api : Api) (sid : String) (d : Bool)
    (p : UserRec × ShiftEntry) :
    ((planCall api sid d p).1).filter Event.isFetch = [] :=
  create_override_no_fetch api sid p.1 p.2.start p.2.stop d

/-- A run that returns normally executed every planned call normally. -/
theorem runPlan_ok_all (api : Api) (sid : String) (d : Bool)
    (plan : List (UserRec × ShiftEntry))
    (h : (runPlan api sid d plan).2 = .ok ()) :
    ∀ p ∈ plan, (planCall api sid d p).2 = .ok () := by
  induction plan with
  | nil => simp
  | cons p rest ih =>
    simp only [runPlan] at h
    cases hc : (planCall api sid d p).2 with
    | error e => simp [hc] at h
    | ok u =>
      cases u
      simp only [hc] at h
      intro q hq
      rcases List.mem_cons.mp hq with rfl | hq'
      · exact hc
      · exact ih h q hq'

/-- If every planned call returns normally, so does the whole run. -/
theorem runPlan_all_ok (api : Api) (sid : String) (d : Bool)
    (plan : List (UserRec × ShiftEntry))
    (h : ∀ p ∈ plan, (planCall api sid d p).2 = .ok ()) :
    (runPlan api sid d plan).2 = .ok () := by
  induction plan with
  | nil => rfl
  | cons p rest ih =>
    have hp := h p (List.mem_cons_self p rest)
    simp only [runPlan, hp]
    exact ih (fun q hq => h q (List.mem_cons_of_mem p hq))

/-- Trace of a run that returned normally: the traces of all planned calls,
in plan order. -/
theorem runPlan_ok_trace (api : Api) (sid : String) (d : Bool)
    (plan : List (UserRec × ShiftEntry))
    (h : (runPlan api sid d plan).2 = .ok ()) :
    (runPlan api sid d plan).1
      = (plan.map (fun p => (planCall api sid d p).1)).flatten := by
  induction plan with
  | nil => rfl
  | cons p rest ih =>
    simp only [runPlan] at h ⊢
    cases hc : (planCall api sid d p).2 with
    | error e => simp [hc] at h
    | ok u =>
      cases u
      simp only [hc] at h ⊢
      simp [ih h]

/-- On a normal run, the recorded writer invocations are exactly one per plan
entry, in plan order, with that entry's interval and user. -/
theorem runPlan_ok_filter_invoke (api : Api) (sid : String) (d : Bool)
    (plan : List (UserRec × ShiftEntry))
    (h : (runPlan api sid d plan).2 = .ok ()) :
    (runPlan api sid d plan).1.filter Event.isInvoke
      = plan.map (fun p => invokeEvent sid p.1 d p.2) := by
  induction plan with
  | nil => rfl
  | cons p rest ih =>
    simp only [runPlan] at h ⊢
    cases hc : (planCall api sid d p).2 with
    | error e => simp [hc] at h
    | ok u =>
      cases u
      simp only [hc] at h ⊢
      simp [List.filter_append, planCall_filter_invoke, ih h]

/-- In every run, normal or aborted, the recorded writer invocations are an
initial segment of the plan, in plan order. -/
theorem runPlan_filter_invoke_take (api : Api) (sid : String) (d : Bool)
    (plan : List (UserRec × ShiftEntry)) :
    ∃ n, (runPlan api sid d plan).1.filter Event.isInvoke
      = (plan.map (fun p => invokeEvent sid p.1 d p.2)).take n := by
  induction plan with
  | nil => exact ⟨0, rfl⟩
  | cons p rest ih =>
    cases hc : (planCall api sid d p).2 with
    | error e =>
      refine ⟨1, ?_⟩
      simp only [runPlan, hc]
      simp [planCall_filter_invoke]
    | ok u =>
      cases u
      obtain ⟨n, hn⟩ := ih
      refine ⟨n + 1, ?_⟩
      simp only [runPlan, hc]
      simp [List.filter_append, planCall_filter_invoke, hn]

/-- No write loop ever issues a schedule fetch. -/
theorem runPlan_no_fetch (api : Api) (sid : String) (d : Bool)
    (plan : List (UserRec × ShiftEntry)) :
    (runPlan api sid d plan).1.filter Event.isFetch = [] := by
  induction plan with
  | nil => rfl
  | cons p rest ih =>
    cases hc : (planCall api sid d p).2 with
    | error e =>
      simp only [runPlan, hc]
      simp [planCall_no_fetch]
    | ok u =>
      cases u
      simp only [runPlan, hc]
      simp [List.filter_append, planCall_no_fetch, ih]

/-- A dry-run write loop issues no POST. -/
theorem runPlan_filter_post_dry (api : Api) (sid : String)
    (plan : List (UserRec × ShiftEntry)) :
    (runPlan api sid true plan).1.filter Event.isPost = [] := by
  induction plan with
  | nil => rfl
  | cons p rest ih =>
    cases hc : (planCall api sid true p).2 with
    | error e =>
      simp only [runPlan, hc]
      exact create_override_filter_post_dry api sid p.1 p.2.start p.2.stop
    | ok u =>
      cases u
      simp only [runPlan, hc]
      simp only [List.filter_append, ih]
      simp [create_override_filter_post_dry api sid p.1 p.2.start p.2.stop, planCall]

/-- An aborted run stopped at the first failing call: the calls before it all
returned normally, the failing call's exception is the run's exception, and
the trace is exactly the traces of the calls up to and including the failing
one. -/
theorem runPlan_error_charact (api : Api) (sid : String) (d : Bool)
    (plan : List (UserRec × ShiftEntry)) (e : PDError)
    (h : (runPlan api sid d plan).2 = .error e) :
    ∃ k, ∃ hk : k < plan.length,
      (∀ i, (hi : i < k) →
          (planCall api sid d (plan.get ⟨i, Nat.lt_trans hi hk⟩)).2 = .ok ())
      ∧ (planCall api sid d (plan.get ⟨k, hk⟩)).2 = .error e
      ∧ (runPlan api sid d plan).1
        = ((plan.take k).map (fun p => (planCall api sid d p).1)).flatten
          ++ (planCall api sid d (plan.get ⟨k, hk⟩)).1 := by
  induction plan with
  | nil => simp [runPlan] at h
  | cons p rest ih =>
    cases hc : (planCall api sid d p).2 with
    | error e0 =>
      simp only [runPlan, hc] at h
      have he : e0 = e := by simpa using h
      subst he
      refine ⟨0, Nat.succ_pos _, ?_, hc, ?_⟩
      · intro i hi
        exact absurd hi (Nat.not_lt_zero i)
      · simp only [runPlan, hc]
        simp
    | ok u =>
      cases u
      simp only [runPlan, hc] at h
      obtain ⟨k, hk, hall, hfail, htrace⟩ := ih h
      refine ⟨k + 1, Nat.succ_lt_succ hk, ?_, hfail, ?_⟩
      · intro i hi
        cases i with
        | zero => exact hc
        | succ j => exact hall j (Nat.lt_of_succ_lt_succ hi)
      · simp only [runPlan, hc]
        simp only [List.take_succ_cons, List.map_cons, List.flatten_cons]
        rw [htrace, List.append_assoc]
        rfl

/-- No write loop ever records a schedule fetch (membership form). -/
theorem runPlan_fetch_not_mem (api : Api) (sid : String) (d : Bool)
    (plan : List (UserRec × ShiftEntry)) (s a b : String) :
    Event.getSchedule s a b ∉ (runPlan api sid d plan).1 := by
  intro hm
  have hf := List.filter_eq_nil_iff.mp (runPlan_no_fetch api sid d plan)
  exact hf _ hm rfl

/-- A whole dry run of `main` issues no override POST. -/
theorem main_dry_no_post (api : Api) (sn cuw oun ouw : String) :
    (main api sn cuw oun ouw true).1.filter Event.isPost = [] := by
  unfold main
  simp only [get_current_user, get_user_by_username, get_schedule_id_by_name,
    get_schedule]
  split
  · simp [Event.isPost]
  · split
    · simp [Event.isPost]
    · split
      · simp [Event.isPost]
      · split
        · simp [Event.isPost]
        · split
          · simp [Event.isPost]
          · split
            · simp [Event.isPost]
            · split
              · simp [Event.isPost]
              · rw [swap_shifts_eq_runPlan]
                simp [List.filter_append, Event.isPost, runPlan_filter_post_dry]

/-! ## The claims -/

/-- C1: on a swap that completes normally, the orchestrator invokes the
override writer exactly once per fetched shift entry — `|A| + |B|` calls in
total — each call passing that entry's `start`/`end` unchanged and assigning
the interval to the counterpart user (A's shifts to B, then B's to A). -/
theorem swap_invokes_writer_once_per_shift (api : Api) (sid : String)
    (cu ou : UserRec) (A B : List ShiftEntry) (d : Bool)
    (h : (swap_shifts api sid cu ou A B d).2 = .ok ()) :
    (swap_shifts api sid cu ou A B d).1.filter Event.isInvoke
      = A.map (invokeEvent sid ou d) ++ B.map (invokeEvent sid cu d)
    ∧ ((swap_shifts api sid cu ou A B d).1.filter Event.isInvoke).length
      = A.length + B.length := by
  rw [swap_shifts_eq_runPlan] at h ⊢
  have hi := runPlan_ok_filter_invoke api sid d (swapPlan cu ou A B) h
  constructor
  · rw [hi]
    simp only [swapPlan, List.map_append, List.map_map]
    rfl
  · rw [hi]
    simp [swapPlan]

/-- C1 witness: the scenario swap (one shift each side) invokes the writer
twice, handing A's interval to B and B's interval to A. -/
theorem swap_invokes_writer_once_per_shift_witness :
    (swap_shifts apiOk "PSCHED1" userA userB [shiftA1] [shiftB1] false).1.filter
        Event.isInvoke
      = [shiftA1].map (invokeEvent "PSCHED1" userB false)
        ++ [shiftB1].map (invokeEvent "PSCHED1" userA false)
    ∧ ((swap_shifts apiOk "PSCHED1" userA userB [shiftA1] [shiftB1] false).1.filter
        Event.isInvoke).length
      = [shiftA1].length + [shiftB1].length :=
  swap_invokes_writer_once_per_shift apiOk "PSCHED1" userA userB
    [shiftA1] [shiftB1] false rfl

/-- C2 counterexample: with dry-run set, the override writer does not return
success unconditionally — on a user record lacking the `summary` key the dry
run raises `KeyError` instead of succeeding. -/
theorem dry_run_not_unconditional_success :
    (create_override apiOk "PSCHED1" ⟨some "U2", none⟩ "2024-01-01T00:00:00Z"
        "2024-01-08T00:00:00Z" true).2 ≠ .ok () := by
  intro h
  exact Except.noConfusion h

/-- C2 (amended): for every input with dry-run true the override writer
performs no network write call for any shift (and a whole dry run of `main`
issues none), and it returns success provided the user record carries its
`id` and `summary` keys. -/
theorem dry_run_never_writes (api : Api) :
    (∀ sid u s e, ((create_override api sid u s e true).1).filter Event.isPost = [])
    ∧ (∀ sid u (s e : String), u.uid.isSome → u.summary.isSome →
        (create_override api sid u s e true).2 = .ok ())
    ∧ (∀ sn cuw oun ouw, ((main api sn cuw oun ouw true).1).filter Event.isPost = []) :=
  ⟨fun sid u s e => create_override_filter_post_dry api sid u s e,
   fun sid u s e h1 h2 => create_override_dry_ok api sid u s e h1 h2,
   fun sn cuw oun ouw => main_dry_no_post api sn cuw oun ouw⟩

/-- C2 witness: a dry-run writer call on a well-formed user record succeeds. -/
theorem dry_run_never_writes_witness :
    (create_override apiOk "PSCHED1" userB "2024-01-01T00:00:00Z"
        "2024-01-08T00:00:00Z" true).2 = .ok () :=
  (dry_run_never_writes apiOk).2.1 "PSCHED1" userB "2024-01-01T00:00:00Z"
    "2024-01-08T00:00:00Z" rfl rfl

/-- C3: if the swap aborts with an exception, it stopped at the first failing
writer call: every planned call before it returned normally, no later planned
call was attempted (the trace is exactly the calls up to and including the
failing one), and the overrides already posted stay in the trace with nothing
issued to undo them. -/
theorem override_failure_aborts_swap (api : Api) (sid : String)
    (cu ou : UserRec) (A B : List ShiftEntry) (d : Bool) (e : PDError)
    (h : (swap_shifts api sid cu ou A B d).2 = .error e) :
    ∃ k, ∃ hk : k < (swapPlan cu ou A B).length,
      (∀ i, (hi : i < k) →
          (planCall api sid d ((swapPlan cu ou A B).get ⟨i, Nat.lt_trans hi hk⟩)).2
            = .ok ())
      ∧ (planCall api sid d ((swapPlan cu ou A B).get ⟨k, hk⟩)).2 = .error e
      ∧ (swap_shifts api sid cu ou A B d).1
        = (((swapPlan cu ou A B).take k).map (fun p => (planCall api sid d p).1)).flatten
          ++ (planCall api sid d ((swapPlan cu ou A B).get ⟨k, hk⟩)).1 := by
  rw [swap_shifts_eq_runPlan] at h ⊢
  exact runPlan_error_charact api sid d (swapPlan cu ou A B) e h

/-- C3 witness: when every POST is rejected, the scenario swap aborts at the
very first planned call. -/
theorem override_failure_aborts_swap_witness :
    ∃ k, ∃ hk : k < (swapPlan userA userB [shiftA1] [shiftB1]).length,
      (∀ i, (hi : i < k) →
          (planCall apiFail "PSCHED1" false
            ((swapPlan userA userB [shiftA1] [shiftB1]).get
              ⟨i, Nat.lt_trans hi hk⟩)).2 = .ok ())
      ∧ (planCall apiFail "PSCHED1" false
          ((swapPlan userA userB [shiftA1] [shiftB1]).get ⟨k, hk⟩)).2
        = .error (.httpError 400)
      ∧ (swap_shifts apiFail "PSCHED1" userA userB [shiftA1] [shiftB1] false).1
        = (((swapPlan userA userB [shiftA1] [shiftB1]).take k).map
            (fun p => (planCall apiFail "PSCHED1" false p).1)).flatten
          ++ (planCall apiFail "PSCHED1" false
              ((swapPlan userA userB [shiftA1] [shiftB1]).get ⟨k, hk⟩)).1 :=
  override_failure_aborts_swap apiFail "PSCHED1" userA userB [shiftA1] [shiftB1]
    false (.httpError 400) rfl

/-- C4: every schedule fetch that `main` issues queries a window whose start
is one of the two supplied week-start dates and whose end is exactly that
start plus eight days (parsed, advanced by `timedelta(days=8)`, reformatted). -/
theorem fetch_window_end_is_start_plus_8_days (api : Api)
    (sn cuw oun ouw : String) (d : Bool) (sid since untl : String)
    (h : Event.getSchedule sid since untl ∈ (main api sn cuw oun ouw d).1) :
    (since = cuw ∨ since = ouw)
    ∧ ∃ dd, strptimeYmd since = some dd ∧ untl = strftimeYmd (addDays dd 8) := by
  unfold main at h
  simp only [get_current_user, get_user_by_username, get_schedule_id_by_name,
    get_schedule] at h
  split at h
  · simp at h
  · split at h
    · simp at h
    · split at h
      · simp at h
      · split at h
        · simp at h
        · rename_i dateA hA
          split at h
          · simp at h
          · rename_i dateB hB
            split at h
            · simp at h
              obtain ⟨h1, h2, h3⟩ := h
              subst h2
              exact ⟨Or.inl rfl, dateA, hA, h3⟩
            · split at h
              · simp at h
                rcases h with ⟨h1, h2, h3⟩ | ⟨h1, h2, h3⟩
                · subst h2; exact ⟨Or.inl rfl, dateA, hA, h3⟩
                · subst h2; exact ⟨Or.inr rfl, dateB, hB, h3⟩
              · rw [swap_shifts_eq_runPlan] at h
                simp [runPlan_fetch_not_mem] at h
                rcases h with ⟨h1, h2, h3⟩ | ⟨h1, h2, h3⟩
                · subst h2; exact ⟨Or.inl rfl, dateA, hA, h3⟩
                · subst h2; exact ⟨Or.inr rfl, dateB, hB, h3⟩

/-- C4 witness: the boundary instance — a scenario run whose trace contains
the fetch starting 2024-01-01 is fetched with window end 2024-01-09. -/
theorem fetch_window_end_is_start_plus_8_days_witness :
    ("2024-01-01" = "2024-01-01" ∨ "2024-01-01" = "2024-01-08")
    ∧ ∃ dd, strptimeYmd "2024-01-01" = some dd
        ∧ "2024-01-09" = strftimeYmd (addDays dd 8) :=
  fetch_window_end_is_start_plus_8_days apiOk "Primary" "2024-01-01" "bob"
    "2024-01-08" false "PSCHED1" "2024-01-01" "2024-01-09" (by decide)

/-- C5: if the user search or the schedule search comes back empty, `main`
issues no schedule fetch, no writer invocation and no override POST, and
returns normally (the miss is handled locally, no exception propagates). -/
theorem lookup_miss_returns_cleanly (api : Api) (sn cuw oun ouw : String)
    (d : Bool) :
    (api.userSearch oun = [] →
      (main api sn cuw oun ouw d).1.filter Event.isFetch = []
      ∧ (main api sn cuw oun ouw d).1.filter Event.isInvoke = []
      ∧ (main api sn cuw oun ouw d).1.filter Event.isPost = []
      ∧ (main api sn cuw oun ouw d).2 = .ok ())
    ∧ (api.scheduleSearch sn = [] →
      (main api sn cuw oun ouw d).1.filter Event.isFetch = []
      ∧ (main api sn cuw oun ouw d).1.filter Event.isInvoke = []
      ∧ (main api sn cuw oun ouw d).1.filter Event.isPost = []
      ∧ (main api sn cuw oun ouw d).2 = .ok ()) := by
  constructor
  · intro h
    unfold main
    simp only [get_current_user, get_user_by_username, get_schedule_id_by_name, h]
    simp [Event.isFetch, Event.isInvoke, Event.isPost]
  · intro h
    unfold main
    simp only [get_current_user, get_user_by_username, get_schedule_id_by_name, h]
    cases hu : (api.userSearch oun).head? with
    | none => simp [Event.isFetch, Event.isInvoke, Event.isPost]
    | some u => simp [Event.isFetch, Event.isInvoke, Event.isPost]

/-- C5 witness: concrete runs against a service with an empty user search and
one with an empty schedule search both return cleanly with no fetch or
write. -/
theorem lookup_miss_returns_cleanly_witness :
    ((main apiNoUser "Primary" "2024-01-01" "bob" "2024-01-08" false).1.filter
        Event.isFetch = []
      ∧ (main apiNoUser "Primary" "2024-01-01" "bob" "2024-01-08" false).1.filter
        Event.isInvoke = []
      ∧ (main apiNoUser "Primary" "2024-01-01" "bob" "2024-01-08" false).1.filter
        Event.isPost = []
      ∧ (main apiNoUser "Primary" "2024-01-01" "bob" "2024-01-08" false).2 = .ok ())
    ∧ ((main apiNoSchedule "Primary" "2024-01-01" "bob" "2024-01-08" false).1.filter
        Event.isFetch = []
      ∧ (main apiNoSchedule "Primary" "2024-01-01" "bob" "2024-01-08" false).1.filter
        Event.isInvoke = []
      ∧ (main apiNoSchedule "Primary" "2024-01-01" "bob" "2024-01-08" false).1.filter
        Event.isPost = []
      ∧ (main apiNoSchedule "Primary" "2024-01-01" "bob" "2024-01-08" false).2
        = .ok ()) :=
  ⟨(lookup_miss_returns_cleanly apiNoUser "Primary" "2024-01-01" "bob"
      "2024-01-08" false).1 rfl,
   (lookup_miss_returns_cleanly apiNoSchedule "Primary" "2024-01-01" "bob"
      "2024-01-08" false).2 rfl⟩

/-- C6: the shift-fetch step keeps exactly the fetched rendered entries whose
assigned user id matches, as a subsequence of the remote order — never
reordered, and no matching entry dropped (multiplicities preserved). -/
theorem fetch_filter_is_exact_ordered_subsequence (api : Api)
    (sid since untl userId : String) :
    List.Sublist (selectUserShifts (get_schedule api sid since untl).2 userId)
      (get_schedule api sid since untl).2
    ∧ (∀ s, s ∈ selectUserShifts (get_schedule api sid since untl).2 userId
        ↔ s ∈ (get_schedule api sid since untl).2 ∧ s.userId = userId)
    ∧ (∀ s : ShiftEntry, s.userId = userId →
        (selectUserShifts (get_schedule api sid since untl).2 userId).count s
          = ((get_schedule api sid since untl).2).count s) := by
  refine ⟨List.filter_sublist _, ?_, ?_⟩
  · intro s
    simp [selectUserShifts, List.mem_filter]
  · intro s hs
    exact List.count_filter (by simp [hs])

/-- C6 witness: the current user's matching scenario entry is kept with its
multiplicity. -/
theorem fetch_filter_is_exact_ordered_subsequence_witness :
    shiftA1.userId = "U1"
    ∧ (selectUserShifts (get_schedule apiOk "PSCHED1" "2024-01-01"
          "2024-01-09").2 "U1").count shiftA1
      = ((get_schedule apiOk "PSCHED1" "2024-01-01" "2024-01-09").2).count shiftA1 :=
  ⟨rfl,
   (fetch_filter_is_exact_ordered_subsequence apiOk "PSCHED1" "2024-01-01"
      "2024-01-09" "U1").2.2 shiftA1 rfl⟩

/-- C7: writer calls are strictly ordered — the recorded invocation sequence
of any swap, completed or aborted, is an initial segment of: all of A's
shifts assigned to B in fetched order, then all of B's shifts assigned to A
in fetched order. -/
theorem override_writes_strictly_ordered (api : Api) (sid : String)
    (cu ou : UserRec) (A B : List ShiftEntry) (d : Bool) :
    ∃ n, (swap_shifts api sid cu ou A B d).1.filter Event.isInvoke
      = (A.map (invokeEvent sid ou d) ++ B.map (invokeEvent sid cu d)).take n := by
  rw [swap_shifts_eq_runPlan]
  obtain ⟨n, hn⟩ := runPlan_filter_invoke_take api sid d (swapPlan cu ou A B)
  refine ⟨n, ?_⟩
  rw [hn]
  simp only [swapPlan, List.map_append, List.map_map]
  rfl

/-- C8: both resolvers return the first element of the remote search result
when it is non-empty — whatever candidates follow it — and `None` when it is
empty. -/
theorem resolvers_take_first_search_result (api : Api) (uq sq : String) :
    ((api.userSearch uq = [] → (get_user_by_username api uq).2 = none)
      ∧ ∀ u us, api.userSearch uq = u :: us →
          (get_user_by_username api uq).2 = some u)
    ∧ ((api.scheduleSearch sq = [] → (get_schedule_id_by_name api sq).2 = none)
      ∧ ∀ s ss, api.scheduleSearch sq = s :: ss →
          (get_schedule_id_by_name api sq).2 = some s.sid) := by
  refine ⟨⟨?_, ?_⟩, ?_, ?_⟩
  · intro h
    simp [get_user_by_username, h]
  · intro u us h
    simp [get_user_by_username, h]
  · intro h
    simp [get_schedule_id_by_name, h]
  · intro s ss h
    simp [get_schedule_id_by_name, h]

/-- C8 witness: with two candidates in each search, the resolvers silently
take the first one; with an empty search they return `None`. -/
theorem resolvers_take_first_search_result_witness :
    (get_user_by_username apiMany "bob").2 = some userB
    ∧ (get_schedule_id_by_name apiMany "Primary").2 = some "PSCHED1"
    ∧ (get_user_by_username apiNoUser "bob").2 = none :=
  ⟨(resolvers_take_first_search_result apiMany "bob" "Primary").1.2 userB
      [userA] rfl,
   (resolvers_take_first_search_result apiMany "bob" "Primary").2.2 ⟨"PSCHED1"⟩
      [⟨"PSCHED2"⟩] rfl,
   (resolvers_take_first_search_result apiNoUser "bob" "Primary").1.1 rfl⟩

/-- C9: every override-writer call reads the user record's `id` and `summary`
keys before doing anything observable: a call that returns success saw both
keys, and on a record with `id` but no `summary` the call — dry-run included —
raises `KeyError('summary')` having issued no network write. -/
theorem override_writer_requires_id_and_summary (api : Api) (sid : String)
    (u : UserRec) (s e : String) (d : Bool) :
    ((create_override api sid u s e d).2 = .ok () →
      u.uid.isSome ∧ u.summary.isSome)
    ∧ (∀ uid, u.uid = some uid → u.summary = none →
        create_override api sid u s e d
          = ([Event.invokeOverride sid u.uid s e d],
             .error (.keyError "summary"))) :=
  ⟨fun h => create_override_ok_keys api sid u s e d h,
   fun uid h1 h2 => create_override_missing_summary api sid u s e d uid h1 h2⟩

/-- C9 witness: a dry-run call on a record lacking `summary` fails with the
key error before any event other than the invocation itself. -/
theorem override_writer_requires_id_and_summary_witness :
    create_override apiOk "PSCHED1" ⟨some "U2", none⟩ "2024-01-01T00:00:00Z"
        "2024-01-08T00:00:00Z" true
      = ([Event.invokeOverride "PSCHED1" (some "U2") "2024-01-01T00:00:00Z"
            "2024-01-08T00:00:00Z" true],
         .error (.keyError "summary")) :=
  (override_writer_requires_id_and_summary apiOk "PSCHED1" ⟨some "U2", none⟩
      "2024-01-01T00:00:00Z" "2024-01-08T00:00:00Z" true).2 "U2" rfl rfl

/-- C10: when each planned writer call would return normally, a swap with one
empty side neither raises nor skips: it records zero invocations for the
empty side and one per shift for the other side, and with both sides empty
it does nothing and returns normally. -/
theorem one_sided_swap_still_runs (api : Api) (sid : String)
    (cu ou : UserRec) (A B : List ShiftEntry) (d : Bool)
    (hA : ∀ s ∈ A, (create_override api sid ou s.start s.stop d).2 = .ok ())
    (hB : ∀ s ∈ B, (create_override api sid cu s.start s.stop d).2 = .ok ()) :
    (A = [] → (swap_shifts api sid cu ou A B d).2 = .ok ()
      ∧ (swap_shifts api sid cu ou A B d).1.filter Event.isInvoke
        = B.map (invokeEvent sid cu d))
    ∧ (B = [] → (swap_shifts api sid cu ou A B d).2 = .ok ()
      ∧ (swap_shifts api sid cu ou A B d).1.filter Event.isInvoke
        = A.map (invokeEvent sid ou d))
    ∧ (A = [] → B = [] → swap_shifts api sid cu ou A B d = ([], .ok ())) := by
  have hall : ∀ p ∈ swapPlan cu ou A B, (planCall api sid d p).2 = .ok () := by
    intro p hp
    rcases List.mem_append.mp hp with hpa | hpb
    · obtain ⟨s, hs, rfl⟩ := List.mem_map.mp hpa
      exact hA s hs
    · obtain ⟨s, hs, rfl⟩ := List.mem_map.mp hpb
      exact hB s hs
  have hok : (swap_shifts api sid cu ou A B d).2 = .ok () := by
    rw [swap_shifts_eq_runPlan]
    exact runPlan_all_ok api sid d _ hall
  have hinv := runPlan_ok_filter_invoke api sid d (swapPlan cu ou A B)
    (by rw [← swap_shifts_eq_runPlan]; exact hok)
  rw [← swap_shifts_eq_runPlan] at hinv
  refine ⟨fun hA0 => ⟨hok, ?_⟩, fun hB0 => ⟨hok, ?_⟩, fun hA0 hB0 => ?_⟩
  · subst hA0
    rw [hinv]
    simp only [swapPlan, List.map_nil, List.nil_append, List.map_map]
    rfl
  · subst hB0
    rw [hinv]
    simp only [swapPlan, List.map_nil, List.append_nil, List.map_map]
    rfl
  · subst hA0
    subst hB0
    rw [swap_shifts_eq_runPlan]
    rfl

/-- C10 witness: a swap whose current-user side is empty still writes the
other user's one shift and completes. -/
theorem one_sided_swap_still_runs_witness :
    (swap_shifts apiOk "PSCHED1" userA userB ([] : List ShiftEntry)
        [shiftB1] false).2 = .ok ()
    ∧ (swap_shifts apiOk "PSCHED1" userA userB ([] : List ShiftEntry)
        [shiftB1] false).1.filter Event.isInvoke
      = [shiftB1].map (invokeEvent "PSCHED1" userA false) :=
  (one_sided_swap_still_runs apiOk "PSCHED1" userA userB [] [shiftB1] false
      (by intro s hs; exact absurd hs (List.not_mem_nil s))
      (by
        intro s hs
        rcases List.mem_singleton.mp hs with rfl
        rfl)).1 rfl

end ShiftSwap
